import Mathlib

/-!
Verification development for the MUI component generator repository.
It embeds the Generation Job state machine (GenerationJob.ts), the
orchestrator (ComponentGenerationService), the CodeValidator safety and
module-specifier checks, and the ComponentPreview sandbox configuration, and proves
the testable properties stated in the specification against them.
-/

namespace MuiGen

/-- ASCII lowercasing on character codes: the code point of an uppercase
letter is shifted by 32, everything else is unchanged. Models the
case-insensitive flag of the forbidden-pattern regexes. -/
def lowerNat (n : Nat) : Nat :=
  if 65 ≤ n ∧ n ≤ 90 then n + 32 else n

/-- Case-insensitive character equality (models regex flag i). -/
def eqCI (c d : Char) : Bool :=
  lowerNat c.toNat == lowerNat d.toNat

/-- Character classes appearing in the forbidden-pattern regexes of
CodeValidator: whitespace, word characters, and the negated class
used by the script-tag pattern. -/
inductive CharClass
  | ws
  | word
  | notGt
deriving DecidableEq, Repr

/-- Membership test of a character in a character class. -/
def CharClass.test : CharClass → Char → Bool
  | .ws, c =>
      c.toNat == 32 || c.toNat == 9 || c.toNat == 10 ||
      c.toNat == 13 || c.toNat == 11 || c.toNat == 12
  | .word, c =>
      (decide (65 ≤ c.toNat) && decide (c.toNat ≤ 90)) ||
      (decide (97 ≤ c.toNat) && decide (c.toNat ≤ 122)) ||
      (decide (48 ≤ c.toNat) && decide (c.toNat ≤ 57)) ||
      c.toNat == 95
  | .notGt, c => !(c.toNat == 62)

/-- One atom of a forbidden pattern: a literal character (matched
case-insensitively), a starred class, or a class repeated once or more. -/
inductive PatAtom
  | lit (c : Char)
  | star (cc : CharClass)
  | plus (cc : CharClass)
deriving DecidableEq, Repr

/-- All suffixes of a character list reachable by consuming zero or more
characters of the given class from the front. -/
def starSuffixes (cc : CharClass) : List Char → List (List Char)
  | [] => [[]]
  | c :: s => (c :: s) :: (if cc.test c then starSuffixes cc s else [])

/-- Advance the set of possible remaining inputs across one pattern atom. -/
def stepAtom (a : PatAtom) (ss : List (List Char)) : List (List Char) :=
  match a with
  | .lit ch =>
      ss.filterMap (fun s =>
        match s with
        | [] => none
        | d :: s2 => if eqCI ch d then some s2 else none)
  | .star cc => ss.flatMap (starSuffixes cc)
  | .plus cc =>
      (ss.filterMap (fun s =>
        match s with
        | [] => none
        | d :: s2 => if cc.test d then some s2 else none)).flatMap (starSuffixes cc)

/-- Does the pattern match a prefix of the character list? -/
def matchAtoms (ps : List PatAtom) (s : List Char) : Bool :=
  !(ps.foldl (fun ss a => stepAtom a ss) [s]).isEmpty

/-- Does the pattern match starting at some position of the list? -/
def searchFrom (ps : List PatAtom) : List Char → Bool
  | [] => matchAtoms ps []
  | c :: s => matchAtoms ps (c :: s) || searchFrom ps s

/-- Does the pattern occur anywhere in the string (models RegExp match). -/
def patSearch (ps : List PatAtom) (code : String) : Bool :=
  searchFrom ps code.toList

/-- A sequence of literal atoms spelled by a string. -/
def lits (s : String) : List PatAtom :=
  s.toList.map PatAtom.lit

/-- The forbidden textual patterns of CodeValidator (field
forbiddenPatterns, constructor lines 43 to 60): all carry the
case-insensitive flag. -/
def forbiddenPatterns : List (List PatAtom) :=
  [ lits "dangerouslySetInnerHTML"
  , lits "innerHTML"
  , lits "outerHTML"
  , lits "document.cookie"
  , lits "window.location"
  , lits "window.open"
  , lits "eval" ++ [.star .ws, .lit '(']
  , lits "new" ++ [.plus .ws] ++ lits "Function"
  , lits "setTimeout" ++ [.star .ws, .lit '(']
  , lits "setInterval" ++ [.star .ws, .lit '(']
  , lits "fetch" ++ [.star .ws, .lit '(']
  , lits "XMLHttpRequest"
  , lits "WebSocket"
  , lits "<script" ++ [.star .notGt, .lit '>']
  , lits "javascript:"
  , lits "on" ++ [.plus .word, .star .ws, .lit '=']
  ]

/-- The forbidden identifier names checked by the syntax-tree walk of
validateSafety (field forbiddenIdentifiers, lines 62 to 74). -/
def forbiddenIdentifiers : List String :=
  [ "eval", "Function", "setTimeout", "setInterval", "fetch"
  , "XMLHttpRequest", "WebSocket", "postMessage", "localStorage"
  , "sessionStorage", "indexedDB" ]

/-- Severity of one validator finding. -/
inductive Severity
  | error
  | warning
deriving DecidableEq, Repr

/-- One safety violation as produced by validateSafety: a kind tag, a
human message and a severity. -/
structure Violation where
  vtype : String
  message : String
  severity : Severity
deriving DecidableEq, Repr

/-- Result shape of validateSafety. -/
structure SafetyResult where
  isValid : Bool
  violations : List Violation
deriving DecidableEq, Repr

/-- Case-sensitive prefix test on character lists. -/
def startsWithChars : List Char → List Char → Bool
  | [], _ => true
  | _ :: _, [] => false
  | p :: ps, c :: cs => (p == c) && startsWithChars ps cs

/-- Case-sensitive substring test (models String.prototype.includes). -/
def containsSub (hay : List Char) (needle : List Char) : Bool :=
  match hay with
  | [] => startsWithChars needle []
  | _ :: rest => startsWithChars needle hay || containsSub rest needle

/-- Abstraction of one node visited by the ts-morph forEachDescendant walk
in validateSafety: an identifier with its text, an element access
expression with its text, a call expression whose callee may be an
identifier with the given text, or any other node kind. The parse itself
is performed by the external TypeScript library, so the node list is an
input of the embedding. -/
inductive TsNode
  | ident (text : String)
  | elementAccess (text : String)
  | call (calleeIsIdent : Bool) (calleeText : String)
  | other
deriving DecidableEq, Repr

/-- Violations contributed by one visited node, mirroring the three checks
inside the forEachDescendant callback (part_003 lines 169 to 213). -/
def nodeViolations (n : TsNode) : List Violation :=
  match n with
  | .ident t =>
      if forbiddenIdentifiers.contains t then
        [⟨"forbidden-identifier", "Forbidden identifier: " ++ t, .error⟩]
      else []
  | .elementAccess t =>
      if containsSub t.toList "window[".toList ||
         containsSub t.toList "document[".toList then
        [⟨"dynamic-access",
          "Potentially dangerous dynamic property access: " ++ t, .warning⟩]
      else []
  | .call isId t =>
      if isId && (t == "eval" || t == "Function") then
        [⟨"eval-construct", "Dangerous eval-like construct: " ++ t, .error⟩]
      else []
  | .other => []

/-- Violations contributed by the fixed forbidden-pattern scan (part_003
lines 148 to 158): one error-severity violation per matching pattern. -/
def patternViolations (code : String) : List Violation :=
  forbiddenPatterns.filterMap (fun p =>
    if patSearch p code then
      some ⟨"forbidden-pattern", "Forbidden pattern detected", .error⟩
    else none)

/-- CodeValidator.validateSafety (part_003 lines 134 to 229): the regex
layer always runs; the syntax-tree layer contributes node findings when
the external parse succeeds (ast = some nodes) and a single warning when
it throws (ast = none). The result is valid exactly when no violation has
error severity. -/
def validateSafety (code : String) (ast : Option (List TsNode)) : SafetyResult :=
  let pv := patternViolations code
  let av :=
    match ast with
    | some nodes => nodes.flatMap nodeViolations
    | none => [⟨"ast-analysis-error", "AST analysis failed", .warning⟩]
  let vs := pv ++ av
  { isValid := (vs.filter (fun v => v.severity == Severity.error)).length == 0
  , violations := vs }

/-- The fixed import allow-list of CodeValidator (field allowedImports,
constructor lines 31 to 41). -/
def allowedImports : List String :=
  [ "@mui/material", "@mui/material/", "@mui/icons-material"
  , "@mui/icons-material/", "@mui/x-data-grid", "@mui/x-data-grid/"
  , "react", "react-hook-form", "react/" ]

/-- Does the string start with the given pattern (String.prototype
startsWith on our character-list representation)? -/
def strStartsWith (s pat : String) : Bool :=
  startsWithChars pat.toList s.toList

/-- CodeValidator.isAllowedImport (part_003 lines 300 to 314): relative
specifiers are allowed, and otherwise the specifier must equal an
allow-list entry or extend one as a string prefix. -/
def isAllowedImport (m : String) : Bool :=
  strStartsWith m "./" || strStartsWith m "../" ||
  allowedImports.any (fun a => m == a || strStartsWith m a)

/-- The module specifiers extracted from the source by the external
TypeScript parse in validateImports: static import declarations in
declaration order, then dynamic import call arguments. -/
structure ParsedImports where
  statics : List String
  dynamics : List String
deriving DecidableEq, Repr

/-- Result shape of validateImports. -/
structure ImportResult where
  isValid : Bool
  forbiddenImports : List String
deriving DecidableEq, Repr

/-- Deduplication keeping first occurrences, as Array.from over a
JavaScript Set does. -/
def dedupFirstAux (seen : List String) : List String → List String
  | [] => []
  | a :: l =>
      if a ∈ seen then dedupFirstAux seen l
      else a :: dedupFirstAux (a :: seen) l

/-- Deduplication of the forbidden-import list, first occurrence kept. -/
def dedupFirst (l : List String) : List String :=
  dedupFirstAux [] l

/-- CodeValidator.validateImports (part_003 lines 231 to 298): when the
external parse succeeds the checked specifiers are the static then the
dynamic ones; when it throws, the regex fallback path checks the
specifiers the fallback regex extracts from the raw source (supplied here
as fallbackSpecs). Every specifier failing isAllowedImport is collected;
the result is valid exactly when that collection is empty, and the
reported list is deduplicated. -/
def validateImports (parsed : Option ParsedImports)
    (fallbackSpecs : List String) : ImportResult :=
  let specs :=
    match parsed with
    | some pi => pi.statics ++ pi.dynamics
    | none => fallbackSpecs
  let forbidden := specs.filter (fun m => !isAllowedImport m)
  { isValid := forbidden.length == 0
  , forbiddenImports := dedupFirst forbidden }

/-- The sandbox attribute the preview component puts on its iframe
(ComponentPreview.tsx line 198 and part_008 line 533, identical string
literal). -/
def previewSandboxAttribute : String :=
  "allow-scripts allow-same-origin allow-forms allow-popups allow-modals"

/-- The rendered iframe element of the component preview. -/
structure IframeSpec where
  src : String
  sandbox : String
  title : String
deriving DecidableEq, Repr

/-- ComponentPreview rendering of the embedded frame (ComponentPreview.tsx
lines 188 to 201): an iframe is emitted exactly when a preview URL is
available, and its sandbox attribute is always the fixed literal above. -/
def renderPreviewIframe (previewUrl : Option String) : Option IframeSpec :=
  match previewUrl with
  | none => none
  | some u =>
      some { src := u, sandbox := previewSandboxAttribute
           , title := "Component Preview" }

/-- Split a character list into space-separated words, the token reading
a browser applies to a sandbox attribute value. -/
def splitWords (acc : List Char) : List Char → List String
  | [] => if acc.isEmpty then [] else [String.mk acc.reverse]
  | c :: rest =>
      if c == ' ' then
        if acc.isEmpty then splitWords [] rest
        else String.mk acc.reverse :: splitWords [] rest
      else splitWords (c :: acc) rest

/-- The token list of a sandbox attribute string. -/
def sandboxTokens (s : String) : List String :=
  splitWords [] s.toList

/-- The closed status enumeration of a generation job
(types/generation.ts lines 75 to 83). -/
inductive GenerationStatus
  | pending
  | processing
  | success
  | failed
  | partialResult
  | timeout
  | rateLimited
deriving DecidableEq, Repr

/-- The string value of a status, used inside thrown error messages. -/
def GenerationStatus.name : GenerationStatus → String
  | .pending => "PENDING"
  | .processing => "PROCESSING"
  | .success => "SUCCESS"
  | .failed => "FAILED"
  | .partialResult => "PARTIAL"
  | .timeout => "TIMEOUT"
  | .rateLimited => "RATE_LIMITED"

/-- A generation request: the prompt and the optional preferred component
category. Only the prompt is inspected by the entity. -/
structure GenerationRequest where
  prompt : String
  preferredType : Option String := none
deriving DecidableEq, Repr

/-- The GenerationJob entity state (GenerationJob.ts lines 3 to 18).
Timestamps are modelled as natural clock values, the result as an opaque
reference string, the captured error as its message, and the metadata bag
as an association list. -/
structure GenerationJob where
  id : String
  request : GenerationRequest
  status : GenerationStatus := .pending
  result : Option String := none
  error : Option String := none
  createdAt : Nat := 0
  startedAt : Option Nat := none
  completedAt : Option Nat := none
  retryCount : Nat := 0
  maxRetries : Nat := 2
  metadata : List (String × String) := []
deriving DecidableEq, Repr

/-- Every entity method below returns the successor state paired with the
optionally thrown error message. A method that throws does so before any
field assignment, so on a throw the returned state is the input state. -/
def GenerationJob.start (j : GenerationJob) (now : Nat) :
    GenerationJob × Option String :=
  if j.status ≠ .pending then
    (j, some ("Cannot start job in " ++ j.status.name ++ " status"))
  else
    ({ j with status := .processing, startedAt := some now }, none)

/-- GenerationJob.complete (lines 37 to 44). -/
def GenerationJob.complete (j : GenerationJob) (result : String) (now : Nat) :
    GenerationJob × Option String :=
  if j.status ≠ .processing then
    (j, some ("Cannot complete job in " ++ j.status.name ++ " status"))
  else
    ({ j with status := .success, result := some result
            , completedAt := some now }, none)

/-- GenerationJob.fail (lines 46 to 53). -/
def GenerationJob.fail (j : GenerationJob) (e : String) (now : Nat) :
    GenerationJob × Option String :=
  if j.status ≠ .processing then
    (j, some ("Cannot fail job in " ++ j.status.name ++ " status"))
  else
    ({ j with status := .failed, error := some e
            , completedAt := some now }, none)

/-- GenerationJob.partialComplete (lines 55 to 63). -/
def GenerationJob.partialComplete (j : GenerationJob) (result e : String)
    (now : Nat) : GenerationJob × Option String :=
  if j.status ≠ .processing then
    (j, some ("Cannot partially complete job in " ++ j.status.name ++ " status"))
  else
    ({ j with status := .partialResult, result := some result, error := some e
            , completedAt := some now }, none)

/-- GenerationJob.timeout (lines 65 to 72). -/
def GenerationJob.timeout (j : GenerationJob) (now : Nat) :
    GenerationJob × Option String :=
  if j.status ≠ .processing then
    (j, some ("Cannot timeout job in " ++ j.status.name ++ " status"))
  else
    ({ j with status := .timeout, error := some "Generation job timed out"
            , completedAt := some now }, none)

/-- GenerationJob.rateLimit (lines 74 to 78): the source method has no
status guard at all and never throws. -/
def GenerationJob.rateLimit (j : GenerationJob) (now : Nat) :
    GenerationJob × Option String :=
  ({ j with status := .rateLimited, error := some "Rate limit exceeded"
          , completedAt := some now }, none)

/-- GenerationJob.canRetry (lines 80 to 84). -/
def GenerationJob.canRetry (j : GenerationJob) : Bool :=
  decide (j.retryCount < j.maxRetries) &&
  (j.status == .failed || j.status == .timeout)

/-- GenerationJob.retry (lines 86 to 95). -/
def GenerationJob.retry (j : GenerationJob) :
    GenerationJob × Option String :=
  if !j.canRetry then
    (j, some "Cannot retry job: max retries reached or job not in retryable state")
  else
    ({ j with retryCount := j.retryCount + 1, status := .pending
            , error := none, startedAt := none, completedAt := none }, none)

/-- Insert or overwrite one metadata key (GenerationJob.addMetadata,
lines 139 to 144); never throws. -/
def GenerationJob.addMetadata (j : GenerationJob) (k v : String) :
    GenerationJob × Option String :=
  let m :=
    if j.metadata.any (fun p => p.1 == k) then
      j.metadata.map (fun p => if p.1 == k then (k, v) else p)
    else j.metadata ++ [(k, v)]
  ({ j with metadata := m }, none)

/-- Is the character JavaScript whitespace (ASCII fragment)? -/
def isWsChar (c : Char) : Bool :=
  CharClass.test .ws c

/-- Leading and trailing whitespace removal, modelling String.prototype
trim on the character-list representation. -/
def trimChars (s : List Char) : List Char :=
  ((s.dropWhile isWsChar).reverse.dropWhile isWsChar).reverse

/-- Is the character an ASCII letter or digit (the class kept by the
name-cleaning replace in generateUniqueName)? -/
def isAlphaNumChar (c : Char) : Bool :=
  (decide (65 ≤ c.toNat) && decide (c.toNat ≤ 90)) ||
  (decide (97 ≤ c.toNat) && decide (c.toNat ≤ 122)) ||
  (decide (48 ≤ c.toNat) && decide (c.toNat ≤ 57))

/-- ASCII uppercasing of one character, modelling toUpperCase applied to
a single alphanumeric character. -/
def toUpperCharJS (c : Char) : Char :=
  if 97 ≤ c.toNat ∧ c.toNat ≤ 122 then Char.ofNat (c.toNat - 32) else c

/-- The name-cleaning steps of generateUniqueName (GenerationJob.ts
related service, lines 574 to 587): trim, strip non-alphanumerics,
capitalize the first character when it is not already an uppercase
letter, and fall back to GeneratedComponent when nothing remains. -/
def cleanBaseName (baseName : String) : String :=
  let s := (trimChars baseName.toList).filter isAlphaNumChar
  let s :=
    match s with
    | [] => []
    | c :: rest =>
        if decide (65 ≤ c.toNat) && decide (c.toNat ≤ 90) then c :: rest
        else toUpperCharJS c :: rest
  if s.isEmpty then "GeneratedComponent" else String.mk s

/-- The bounded uniqueness-probe loop of generateUniqueName (lines 589 to
614). The repository findByName collaborator is modelled by existsName,
which may also throw (the Except error case, taken by the catch branch
that returns the current candidate). The loop runs while counter is below
100, so it is presented with fuel equal to 100 minus counter; exhausted
fuel is the loop exit, which returns the timestamp-suffixed fallback. -/
def probeLoop (existsName : String → Except Unit Bool) (cleanName : String)
    (now : Nat) : Nat → String → Nat → String
  | 0, _, _ => cleanName ++ toString now
  | fuel + 1, uniqueName, counter =>
      match existsName uniqueName with
      | .error _ => uniqueName
      | .ok false => uniqueName
      | .ok true =>
          probeLoop existsName cleanName now fuel
            (cleanName ++ toString counter) (counter + 1)

/-- ComponentGenerationService.generateUniqueName (lines 574 to 618). -/
def generateUniqueName (existsName : String → Except Unit Bool)
    (baseName : String) (now : Nat) : String :=
  let cleanName := cleanBaseName baseName
  probeLoop existsName cleanName now 99 cleanName 1

/-- The structured component returned by the model provider. -/
structure LlmComponent where
  componentType : String
  componentName : String
  code : String
deriving DecidableEq, Repr

/-- The provider response consumed by processGenerationJob. -/
structure LlmResponse where
  success : Bool
  component : Option LlmComponent
  errorMessage : Option String := none
deriving DecidableEq, Repr

/-- Observable collaborator interactions of one orchestration run. -/
inductive ProcEvent
  | jobStored
  | started
  | promptAnalyzed
  | providerCalled
  | validatorInvoked
  | componentPersisted (name : String) (code : String)
  | jobCompleted
  | jobFailed
  | jobRetried
deriving DecidableEq, Repr

/-- The catch handler of processGenerationJob (lines 411 to 421): retry
when canRetry allows it, otherwise fail with the captured error. -/
def handleProcessError (j : GenerationJob) (errMsg : String) (now : Nat) :
    GenerationJob × List ProcEvent :=
  if j.canRetry then ((j.retry).1, [.jobRetried])
  else ((j.fail errMsg now).1, [.jobFailed])

/-- ComponentGenerationService.processGenerationJob (lines 287 to 423) on
an already loaded job. The prompt analysis, provider call and persistence
collaborators are external; the provider answer and the findByName
behaviour are inputs. The validation step of the source (lines 310 to
348) is commented out there — the code between the provider call and the
unique-name computation is disabled with a TODO to re-enable it — so no
run ever produces a validatorInvoked event, and the artifact is persisted
exactly as the provider returned it. -/
def processGenerationJob (j : GenerationJob) (llm : LlmResponse)
    (existsName : String → Except Unit Bool) (now : Nat) :
    GenerationJob × List ProcEvent :=
  match j.start now with
  | (j1, some e) => handleProcessError j1 e now
  | (j1, none) =>
      let baseEvs := [ProcEvent.started, .promptAnalyzed, .providerCalled]
      match llm.success, llm.component with
      | true, some comp =>
          let uniqueName := generateUniqueName existsName comp.componentName now
          let (j2, _) := j1.complete comp.code now
          (j2, baseEvs ++ [.componentPersisted uniqueName comp.code, .jobCompleted])
      | _, _ =>
          let errMsg := llm.errorMessage.getD "Generation failed"
          let (j2, evs) := handleProcessError j1 errMsg now
          (j2, baseEvs ++ evs)

/-- The GenerationJob constructor guard (validateRequest, lines 20 to 27):
a missing or whitespace-only prompt and an over-length prompt are both
rejected with a thrown error before the job exists. -/
def validateRequestPrompt (p : String) : Option String :=
  if p.toList.isEmpty || (trimChars p.toList).isEmpty then
    some "Generation request must have a non-empty prompt"
  else if decide (p.toList.length > 2000) then
    some "Prompt is too long (max 2000 characters)"
  else none

/-- Construction of a GenerationJob (constructor lines 4 to 18): the
request is validated inside the constructor, so an invalid prompt throws
before any job value exists. -/
def mkGenerationJob (id : String) (req : GenerationRequest) (now : Nat) :
    Except String GenerationJob :=
  match validateRequestPrompt req.prompt with
  | some m => .error m
  | none => .ok { id := id, request := req, createdAt := now }

/-- ComponentGenerationService.generateComponent (lines 255 to 285)
composed with the processing it launches: the job is constructed (which
validates the request), stored, and then processed. When the constructor
throws, nothing is stored and no collaborator is contacted, so the trace
is empty. -/
def generateComponent (id : String) (req : GenerationRequest)
    (llm : LlmResponse) (existsName : String → Except Unit Bool)
    (now : Nat) : Option GenerationJob × List ProcEvent :=
  match mkGenerationJob id req now with
  | .error _ => (none, [])
  | .ok job =>
      let (j2, evs) := processGenerationJob job llm existsName now
      (some j2, ProcEvent.jobStored :: evs)

/-- One externally invokable mutation of a job, used to state sequence
invariants. -/
inductive JobOp
  | opStart (now : Nat)
  | opComplete (r : String) (now : Nat)
  | opFail (e : String) (now : Nat)
  | opPartial (r e : String) (now : Nat)
  | opTimeout (now : Nat)
  | opRateLimit (now : Nat)
  | opRetry
  | opAddMetadata (k v : String)
deriving DecidableEq, Repr

/-- Apply one operation; the second component is the thrown message. -/
def applyOp (j : GenerationJob) : JobOp → GenerationJob × Option String
  | .opStart now => j.start now
  | .opComplete r now => j.complete r now
  | .opFail e now => j.fail e now
  | .opPartial r e now => j.partialComplete r e now
  | .opTimeout now => j.timeout now
  | .opRateLimit now => j.rateLimit now
  | .opRetry => j.retry
  | .opAddMetadata k v => j.addMetadata k v

/-- Run a sequence of operations; a throwing operation leaves the job as
it was and the sequence continues, matching callers that catch. -/
def runOps (j : GenerationJob) (ops : List JobOp) : GenerationJob :=
  ops.foldl (fun j op => (applyOp j op).1) j

/-- Boolean canRetry unfolded to its propositional content. -/
lemma canRetry_iff (j : GenerationJob) :
    j.canRetry = true ↔
      (j.retryCount < j.maxRetries ∧
        (j.status = .failed ∨ j.status = .timeout)) := by
  simp [GenerationJob.canRetry]

/-- A pending job used as a concrete instance in witnesses. -/
def pendingJobEx : GenerationJob :=
  { id := "job-p", request := { prompt := "a card" } }

/-- A failed job with remaining retry budget. -/
def failedJobEx : GenerationJob :=
  { id := "job-f", request := { prompt := "a card" }, status := .failed
  , error := some "boom" }

/-- A failed job whose retry budget is exhausted. -/
def exhaustedJobEx : GenerationJob :=
  { id := "job-x", request := { prompt := "a card" }, status := .failed
  , error := some "boom", retryCount := 2, maxRetries := 2 }

/-- A successfully completed job, a terminal state per the transition
table. -/
def successJobEx : GenerationJob :=
  { id := "job-s", request := { prompt := "a card" }, status := .success
  , result := some "component-1", startedAt := some 1, completedAt := some 2 }

/-- C2 counterexample: the claim states that a transition that is illegal
for the current status throws and leaves the job unchanged, and that
rateLimit is legal only from non-terminal states; but rateLimit carries no
status guard, so invoked on a job already in the terminal SUCCESS state it
throws nothing and overwrites status, error and completion time. -/
theorem generationJob_rateLimit_terminal_cex :
    successJobEx.status = GenerationStatus.success ∧
    (successJobEx.rateLimit 5).2 = none ∧
    (successJobEx.rateLimit 5).1.status = GenerationStatus.rateLimited ∧
    (successJobEx.rateLimit 5).1 ≠ successJobEx := by
  refine ⟨rfl, rfl, rfl, by decide⟩

/-- C2 (amended): every transition behaves per the table of section 4.1 —
start only from PENDING, complete, fail, partialComplete and timeout only
from PROCESSING, retry only from FAILED or TIMEOUT with remaining budget —
and an illegal invocation throws leaving every field unchanged; except
that rateLimit is legal from every state, terminal states included, always
succeeding and marking RATE_LIMITED. -/
theorem generationJob_transition_table :
    ∀ (j : GenerationJob) (now : Nat) (r e : String),
      (j.status = .pending →
        j.start now =
          ({ j with status := .processing, startedAt := some now }, none)) ∧
      (j.status ≠ .pending →
        (j.start now).1 = j ∧ ((j.start now).2).isSome = true) ∧
      (j.status = .processing →
        j.complete r now =
          ({ j with status := .success, result := some r
                  , completedAt := some now }, none)) ∧
      (j.status ≠ .processing →
        (j.complete r now).1 = j ∧ ((j.complete r now).2).isSome = true) ∧
      (j.status = .processing →
        j.fail e now =
          ({ j with status := .failed, error := some e
                  , completedAt := some now }, none)) ∧
      (j.status ≠ .processing →
        (j.fail e now).1 = j ∧ ((j.fail e now).2).isSome = true) ∧
      (j.status = .processing →
        j.partialComplete r e now =
          ({ j with status := .partialResult, result := some r
                  , error := some e, completedAt := some now }, none)) ∧
      (j.status ≠ .processing →
        (j.partialComplete r e now).1 = j ∧
        ((j.partialComplete r e now).2).isSome = true) ∧
      (j.status = .processing →
        j.timeout now =
          ({ j with status := .timeout
                  , error := some "Generation job timed out"
                  , completedAt := some now }, none)) ∧
      (j.status ≠ .processing →
        (j.timeout now).1 = j ∧ ((j.timeout now).2).isSome = true) ∧
      (j.rateLimit now =
        ({ j with status := .rateLimited, error := some "Rate limit exceeded"
                , completedAt := some now }, none)) ∧
      (j.retryCount < j.maxRetries →
        (j.status = .failed ∨ j.status = .timeout) →
        j.retry =
          ({ j with retryCount := j.retryCount + 1, status := .pending
                  , error := none, startedAt := none
                  , completedAt := none }, none)) ∧
      (¬(j.retryCount < j.maxRetries ∧
          (j.status = .failed ∨ j.status = .timeout)) →
        (j.retry).1 = j ∧ ((j.retry).2).isSome = true) := by
  intro j now r e
  refine ⟨?_, ?_, ?_, ?_, ?_, ?_, ?_, ?_, ?_, ?_, rfl, ?_, ?_⟩
  · intro h; simp [GenerationJob.start, h]
  · intro h; simp [GenerationJob.start, h]
  · intro h; simp [GenerationJob.complete, h]
  · intro h; simp [GenerationJob.complete, h]
  · intro h; simp [GenerationJob.fail, h]
  · intro h; simp [GenerationJob.fail, h]
  · intro h; simp [GenerationJob.partialComplete, h]
  · intro h; simp [GenerationJob.partialComplete, h]
  · intro h; simp [GenerationJob.timeout, h]
  · intro h; simp [GenerationJob.timeout, h]
  · intro h1 h2
    have hc : j.canRetry = true := (canRetry_iff j).mpr ⟨h1, h2⟩
    simp [GenerationJob.retry, hc]
  · intro h
    have hc : j.canRetry = false := by
      cases hb : j.canRetry
      · rfl
      · exact absurd ((canRetry_iff j).mp hb) h
    simp [GenerationJob.retry, hc]

/-- Witness for C2: the legal start and retry transitions at concrete
jobs. -/
theorem generationJob_transition_table_witness :
    pendingJobEx.status = GenerationStatus.pending ∧
    pendingJobEx.start 1 =
      ({ pendingJobEx with status := .processing, startedAt := some 1 }, none) ∧
    (failedJobEx.retryCount < failedJobEx.maxRetries ∧
      (failedJobEx.status = .failed ∨ failedJobEx.status = .timeout)) ∧
    failedJobEx.retry =
      ({ failedJobEx with
          retryCount := failedJobEx.retryCount + 1, status := .pending,
          error := none, startedAt := none, completedAt := none }, none) := by
  refine ⟨rfl, (generationJob_transition_table pendingJobEx 1 "r" "e").1 rfl,
          ⟨by decide, Or.inl rfl⟩, ?_⟩
  exact (generationJob_transition_table failedJobEx 9 "r"
    "e").2.2.2.2.2.2.2.2.2.2.2.1 (by decide) (Or.inl rfl)

/-- C8: retry succeeds exactly from FAILED or TIMEOUT with remaining
budget; on success it increments retryCount, clears error and both
attempt timestamps and returns to PENDING in one step; otherwise it
throws and the job is unchanged. -/
theorem generationJob_retry_spec :
    ∀ j : GenerationJob,
      ((j.status = .failed ∨ j.status = .timeout) →
        j.retryCount < j.maxRetries →
        j.retry =
          ({ j with retryCount := j.retryCount + 1, status := .pending
                  , error := none, startedAt := none
                  , completedAt := none }, none)) ∧
      (¬((j.status = .failed ∨ j.status = .timeout) ∧
          j.retryCount < j.maxRetries) →
        (j.retry).1 = j ∧ ((j.retry).2).isSome = true) := by
  intro j
  constructor
  · intro h1 h2
    have hc : j.canRetry = true := (canRetry_iff j).mpr ⟨h2, h1⟩
    simp [GenerationJob.retry, hc]
  · intro h
    have hc : j.canRetry = false := by
      cases hb : j.canRetry
      · rfl
      · obtain ⟨ha, hs⟩ := (canRetry_iff j).mp hb
        exact absurd ⟨hs, ha⟩ h
    simp [GenerationJob.retry, hc]

/-- Witness for C8: a failed job with budget retries into PENDING with
the counter bumped; a failed job at the budget limit throws unchanged. -/
theorem generationJob_retry_spec_witness :
    ((failedJobEx.status = .failed ∨ failedJobEx.status = .timeout) ∧
      failedJobEx.retryCount < failedJobEx.maxRetries) ∧
    failedJobEx.retry =
      ({ failedJobEx with
          retryCount := failedJobEx.retryCount + 1, status := .pending,
          error := none, startedAt := none, completedAt := none }, none) ∧
    ¬((exhaustedJobEx.status = .failed ∨ exhaustedJobEx.status = .timeout) ∧
        exhaustedJobEx.retryCount < exhaustedJobEx.maxRetries) ∧
    (exhaustedJobEx.retry).1 = exhaustedJobEx ∧
    ((exhaustedJobEx.retry).2).isSome = true := by
  refine ⟨⟨Or.inl rfl, by decide⟩,
    (generationJob_retry_spec failedJobEx).1 (Or.inl rfl) (by decide),
    by decide, ?_, ?_⟩
  · exact ((generationJob_retry_spec exhaustedJobEx).2 (by decide)).1
  · exact ((generationJob_retry_spec exhaustedJobEx).2 (by decide)).2

/-- No operation changes the retry budget field. -/
lemma applyOp_maxRetries (j : GenerationJob) (op : JobOp) :
    ((applyOp j op).1).maxRetries = j.maxRetries := by
  cases op <;>
    simp only [applyOp, GenerationJob.start, GenerationJob.complete,
      GenerationJob.fail, GenerationJob.partialComplete, GenerationJob.timeout,
      GenerationJob.rateLimit, GenerationJob.retry,
      GenerationJob.addMetadata] <;>
    first
      | rfl
      | (split <;> rfl)

/-- Only retry touches retryCount. -/
lemma applyOp_retryCount (j : GenerationJob) (op : JobOp)
    (h : op ≠ .opRetry) :
    ((applyOp j op).1).retryCount = j.retryCount := by
  cases op <;>
    first
      | exact absurd rfl h
      | (simp only [applyOp, GenerationJob.start, GenerationJob.complete,
          GenerationJob.fail, GenerationJob.partialComplete,
          GenerationJob.timeout, GenerationJob.rateLimit,
          GenerationJob.addMetadata] <;>
         first
           | rfl
           | (split <;> rfl))

/-- One operation preserves the retry budget invariant. -/
lemma applyOp_invariant (j : GenerationJob) (op : JobOp)
    (h : j.retryCount ≤ j.maxRetries) :
    ((applyOp j op).1).retryCount ≤ ((applyOp j op).1).maxRetries := by
  rw [applyOp_maxRetries]
  cases op with
  | opRetry =>
      show ((j.retry).1).retryCount ≤ j.maxRetries
      cases hb : j.canRetry
      · simp [GenerationJob.retry, hb]; exact h
      · obtain ⟨ha, _⟩ := (canRetry_iff j).mp hb
        simp [GenerationJob.retry, hb]
        exact ha
  | opStart now => rw [applyOp_retryCount j _ (by simp)]; exact h
  | opComplete r now => rw [applyOp_retryCount j _ (by simp)]; exact h
  | opFail e now => rw [applyOp_retryCount j _ (by simp)]; exact h
  | opPartial r e now => rw [applyOp_retryCount j _ (by simp)]; exact h
  | opTimeout now => rw [applyOp_retryCount j _ (by simp)]; exact h
  | opRateLimit now => rw [applyOp_retryCount j _ (by simp)]; exact h
  | opAddMetadata k v => rw [applyOp_retryCount j _ (by simp)]; exact h

/-- C10: along any operation sequence, retryCount never exceeds
maxRetries; retry is the only operation that changes retryCount, it
increments it by exactly one, and it succeeds only under the budget
guard. -/
theorem generationJob_retryCount_invariant :
    (∀ (j : GenerationJob) (op : JobOp),
        ((applyOp j op).1).maxRetries = j.maxRetries) ∧
    (∀ (j : GenerationJob) (op : JobOp), op ≠ .opRetry →
        ((applyOp j op).1).retryCount = j.retryCount) ∧
    (∀ j : GenerationJob, (applyOp j .opRetry).2 = none →
        ((applyOp j .opRetry).1).retryCount = j.retryCount + 1 ∧
        j.retryCount < j.maxRetries) ∧
    (∀ (ops : List JobOp) (j : GenerationJob),
        j.retryCount ≤ j.maxRetries →
        (runOps j ops).retryCount ≤ (runOps j ops).maxRetries) := by
  refine ⟨applyOp_maxRetries, applyOp_retryCount, ?_, ?_⟩
  · intro j h
    cases hb : j.canRetry
    · exact absurd h (by simp [applyOp, GenerationJob.retry, hb])
    · obtain ⟨ha, _⟩ := (canRetry_iff j).mp hb
      exact ⟨by simp [applyOp, GenerationJob.retry, hb], ha⟩
  · intro ops
    induction ops with
    | nil => intro j h; exact h
    | cons op ops ih =>
        intro j h
        rw [runOps, List.foldl_cons]
        exact ih _ (applyOp_invariant j op h)

/-- Witness for C10: the invariant across a concrete retry-exercising
operation sequence. -/
theorem generationJob_retryCount_invariant_witness :
    pendingJobEx.retryCount ≤ pendingJobEx.maxRetries ∧
    (runOps pendingJobEx
        [.opStart 1, .opFail "e1" 2, .opRetry, .opStart 3, .opTimeout 4,
         .opRetry, .opStart 5, .opComplete "r" 6,
         .opRateLimit 7, .opRetry]).retryCount ≤
      (runOps pendingJobEx
        [.opStart 1, .opFail "e1" 2, .opRetry, .opStart 3, .opTimeout 4,
         .opRetry, .opStart 5, .opComplete "r" 6,
         .opRateLimit 7, .opRetry]).maxRetries := by
  refine ⟨by decide, ?_⟩
  exact generationJob_retryCount_invariant.2.2.2 _ pendingJobEx (by decide)

/-- A string built from a nonempty character list is nonempty. -/
lemma mk_cons_ne_empty (x : Char) (xs : List Char) :
    String.mk (x :: xs) ≠ "" := by
  intro h
  have := congrArg String.data h
  simp at this

/-- Appending to a nonempty string keeps it nonempty. -/
lemma append_ne_empty_left (a b : String) (h : a ≠ "") : a ++ b ≠ "" := by
  intro hab
  apply h
  have hd := congrArg String.data hab
  rw [String.data_append] at hd
  have h1 : a.data = [] := (List.append_eq_nil.mp hd).1
  exact String.ext (by rw [h1])

/-- The cleaned base name is never the empty string. -/
lemma cleanBaseName_ne_empty (b : String) : cleanBaseName b ≠ "" := by
  unfold cleanBaseName
  cases h : (trimChars b.toList).filter isAlphaNumChar with
  | nil => simp
  | cons c rest =>
      simp only
      split
      · split
        · simp_all
        · exact mk_cons_ne_empty _ _
      · split
        · simp_all
        · exact mk_cons_ne_empty _ _

/-- Every candidate the probe loop can return is nonempty once the
cleaned name and the running candidate are. -/
lemma probeLoop_ne_empty (existsName : String → Except Unit Bool)
    (cleanName : String) (now : Nat) :
    ∀ (fuel : Nat) (u : String) (k : Nat), cleanName ≠ "" → u ≠ "" →
      probeLoop existsName cleanName now fuel u k ≠ "" := by
  intro fuel
  induction fuel with
  | zero => intro u k hc _; exact append_ne_empty_left _ _ hc
  | succ n ih =>
      intro u k hc hu
      show (match existsName u with
            | .error _ => u
            | .ok false => u
            | .ok true =>
                probeLoop existsName cleanName now n
                  (cleanName ++ toString k) (k + 1)) ≠ ""
      cases hx : existsName u with
      | error _ => exact hu
      | ok b =>
          cases b
          · exact hu
          · exact ih _ _ hc (append_ne_empty_left _ _ hc)

/-- When every probe reports the name as taken, the loop always ends in
the timestamp fallback. -/
lemma probeLoop_all_taken (existsName : String → Except Unit Bool)
    (cleanName : String) (now : Nat)
    (hex : ∀ s, existsName s = .ok true) :
    ∀ (fuel : Nat) (u : String) (k : Nat),
      probeLoop existsName cleanName now fuel u k =
        cleanName ++ toString now := by
  intro fuel
  induction fuel with
  | zero => intro u k; rfl
  | succ n ih =>
      intro u k
      show (match existsName u with
            | .error _ => u
            | .ok false => u
            | .ok true =>
                probeLoop existsName cleanName now n
                  (cleanName ++ toString k) (k + 1)) =
          cleanName ++ toString now
      rw [hex u]
      exact ih _ _

/-- One unfolding of the probe loop at successor fuel. -/
lemma probeLoop_succ (existsName : String → Except Unit Bool)
    (cleanName : String) (now fuel : Nat) (u : String) (k : Nat) :
    probeLoop existsName cleanName now (fuel + 1) u k =
      match existsName u with
      | .error _ => u
      | .ok false => u
      | .ok true =>
          probeLoop existsName cleanName now fuel
            (cleanName ++ toString k) (k + 1) := rfl

/-- C7: the unique-name probe behaves as specified — the returned name is
always nonempty; a collision on the cleaned base yields the base with
suffix 1; a further collision yields suffix 2; when every candidate is
taken the bounded loop falls back to the timestamp suffix; and the Card
scenario stores Card, then Card1. -/
theorem generateUniqueName_spec :
    (∀ (existsName : String → Except Unit Bool) (base : String) (now : Nat),
        generateUniqueName existsName base now ≠ "") ∧
    (∀ (f : String → Bool) (base : String) (now : Nat),
        f (cleanBaseName base) = true →
        f (cleanBaseName base ++ "1") = false →
        generateUniqueName (fun s => .ok (f s)) base now =
          cleanBaseName base ++ "1") ∧
    (∀ (f : String → Bool) (base : String) (now : Nat),
        f (cleanBaseName base) = true →
        f (cleanBaseName base ++ "1") = true →
        f (cleanBaseName base ++ "2") = false →
        generateUniqueName (fun s => .ok (f s)) base now =
          cleanBaseName base ++ "2") ∧
    (∀ (base : String) (now : Nat),
        generateUniqueName (fun _ => .ok true) base now =
          cleanBaseName base ++ toString now) ∧
    (∀ now : Nat,
        generateUniqueName (fun _ => .ok false) "Card" now = "Card" ∧
        generateUniqueName (fun s => .ok (s == "Card")) "Card" now =
          "Card1") := by
  refine ⟨?_, ?_, ?_, ?_, ?_⟩
  · intro existsName base now
    exact probeLoop_ne_empty existsName (cleanBaseName base) now 99
      (cleanBaseName base) 1 (cleanBaseName_ne_empty base)
      (cleanBaseName_ne_empty base)
  · intro f base now h1 h2
    show probeLoop (fun s => Except.ok (f s)) (cleanBaseName base) now 99
        (cleanBaseName base) 1 = cleanBaseName base ++ "1"
    rw [show (99 : Nat) = 98 + 1 from rfl, probeLoop_succ]
    simp only [h1]
    rw [show (98 : Nat) = 97 + 1 from rfl, probeLoop_succ]
    rw [show toString (1 : Nat) = "1" from rfl]
    simp only [h2]
  · intro f base now h1 h2 h3
    show probeLoop (fun s => Except.ok (f s)) (cleanBaseName base) now 99
        (cleanBaseName base) 1 = cleanBaseName base ++ "2"
    rw [show (99 : Nat) = 98 + 1 from rfl, probeLoop_succ]
    simp only [h1]
    rw [show (98 : Nat) = 97 + 1 from rfl, probeLoop_succ]
    rw [show toString (1 : Nat) = "1" from rfl]
    simp only [h2]
    rw [show (97 : Nat) = 96 + 1 from rfl, probeLoop_succ]
    rw [show (1 : Nat) + 1 = 2 from rfl, show toString (2 : Nat) = "2" from rfl]
    simp only [h3]
  · intro base now
    exact probeLoop_all_taken _ (cleanBaseName base) now (fun _ => rfl) 99
      (cleanBaseName base) 1
  · intro now
    exact ⟨rfl, rfl⟩

/-- Witness for C7: the Button collision sequence, concretely. -/
theorem generateUniqueName_spec_witness :
    ((fun s => s == "Button" || s == "Button1") (cleanBaseName "Button") =
        true) ∧
    ((fun s => s == "Button" || s == "Button1")
        (cleanBaseName "Button" ++ "1") = true) ∧
    ((fun s => s == "Button" || s == "Button1")
        (cleanBaseName "Button" ++ "2") = false) ∧
    generateUniqueName
        (fun s => .ok ((fun s => s == "Button" || s == "Button1") s))
        "Button" 7 =
      cleanBaseName "Button" ++ "2" := by
  refine ⟨by decide, by decide, by decide, ?_⟩
  exact generateUniqueName_spec.2.2.1
    (fun s => s == "Button" || s == "Button1") "Button" 7
    (by decide) (by decide) (by decide)

/-- An invalid prompt makes the constructor guard produce a message. -/
lemma validateRequestPrompt_invalid (p : String)
    (h : trimChars p.toList = [] ∨ p.toList.length > 2000) :
    ∃ m, validateRequestPrompt p = some m := by
  unfold validateRequestPrompt
  by_cases hfirst :
      (p.toList.isEmpty || (trimChars p.toList).isEmpty) = true
  · exact ⟨"Generation request must have a non-empty prompt",
      by rw [if_pos hfirst]⟩
  · rcases h with h | h
    · exact absurd (by simp; exact Or.inr h) hfirst
    · refine ⟨"Prompt is too long (max 2000 characters)", ?_⟩
      rw [if_neg hfirst, if_pos (by simpa using h)]

/-- C9: a request whose prompt trims to nothing or exceeds the length
bound is rejected during job construction, so nothing is stored and the
provider is never contacted. -/
theorem generateComponent_rejects_invalid_prompt :
    ∀ (id : String) (req : GenerationRequest) (llm : LlmResponse)
      (existsName : String → Except Unit Bool) (now : Nat),
      (trimChars req.prompt.toList = [] ∨ req.prompt.toList.length > 2000) →
      generateComponent id req llm existsName now = (none, []) ∧
      ProcEvent.providerCalled ∉ (generateComponent id req llm existsName now).2 ∧
      ProcEvent.jobStored ∉ (generateComponent id req llm existsName now).2 := by
  intro id req llm existsName now h
  obtain ⟨m, hm⟩ := validateRequestPrompt_invalid req.prompt h
  have hg : generateComponent id req llm existsName now = (none, []) := by
    unfold generateComponent mkGenerationJob
    rw [hm]
  exact ⟨hg, by rw [hg]; simp, by rw [hg]; simp⟩

/-- Witness for C9: the empty prompt is rejected with an empty trace. -/
theorem generateComponent_rejects_invalid_prompt_witness :
    (trimChars ("" : String).toList = [] ∨
      ("" : String).toList.length > 2000) ∧
    generateComponent "job-1" { prompt := "" }
        { success := false, component := none } (fun _ => .ok false) 0 =
      (none, []) := by
  refine ⟨Or.inl (by decide), ?_⟩
  exact (generateComponent_rejects_invalid_prompt "job-1" { prompt := "" }
    { success := false, component := none } (fun _ => .ok false) 0
    (Or.inl (by decide))).1

/-- Starting a pending job succeeds and moves it to processing. -/
lemma start_pending (j : GenerationJob) (now : Nat)
    (h : j.status = .pending) :
    j.start now = ({ j with status := .processing, startedAt := some now }, none) := by
  simp [GenerationJob.start, h]

/-- A processing job can never pass the canRetry guard. -/
lemma canRetry_processing (j : GenerationJob)
    (h : j.status = .processing) : j.canRetry = false := by
  simp [GenerationJob.canRetry, h]

/-- C3 (code bug evidence): when any step of processing fails — here the
provider reporting failure — the catch handler always takes the fail
branch, even with the whole retry budget remaining, because canRetry
demands a FAILED or TIMEOUT status while the job is still PROCESSING at
the catch site. The job ends FAILED and no retry transition ever fires,
contradicting the claimed retry-then-fail policy. -/
theorem processGenerationJob_error_path_never_retries :
    ∀ (j : GenerationJob) (llm : LlmResponse)
      (existsName : String → Except Unit Bool) (now : Nat),
      j.status = .pending → j.retryCount < j.maxRetries →
      llm.success = false →
      (processGenerationJob j llm existsName now).1.status =
          GenerationStatus.failed ∧
      ProcEvent.jobRetried ∉ (processGenerationJob j llm existsName now).2 ∧
      ((j.start now).1).canRetry = false := by
  intro j llm existsName now hp hr hs
  have hstart := start_pending j now hp
  have hcr : ({ j with status := .processing, startedAt := some now } : GenerationJob).canRetry = false :=
    canRetry_processing _ rfl
  refine ⟨?_, ?_, ?_⟩
  · unfold processGenerationJob
    rw [hstart]
    simp only [hs, handleProcessError, hcr, Bool.false_eq_true, if_false]
    simp [GenerationJob.fail]
  · unfold processGenerationJob
    rw [hstart]
    simp only [hs, handleProcessError, hcr, Bool.false_eq_true, if_false]
    simp
  · rw [hstart]
    exact hcr

/-- Witness for C3: a fresh pending job with full budget still ends
FAILED when the provider fails. -/
theorem processGenerationJob_error_path_never_retries_witness :
    (pendingJobEx.status = GenerationStatus.pending ∧
      pendingJobEx.retryCount < pendingJobEx.maxRetries ∧
      ({ success := false, component := none
       , errorMessage := some "boom" } : LlmResponse).success = false) ∧
    (processGenerationJob pendingJobEx
        { success := false, component := none, errorMessage := some "boom" }
        (fun _ => .ok false) 4).1.status = GenerationStatus.failed := by
  refine ⟨⟨rfl, by decide, rfl⟩, ?_⟩
  exact (processGenerationJob_error_path_never_retries pendingJobEx
    { success := false, component := none, errorMessage := some "boom" }
    (fun _ => .ok false) 4 rfl (by decide) rfl).1

/-- C1 (code bug evidence): the orchestrator never invokes any validator
check — the validation stage of the source is commented out and marked
temporarily disabled — and every successful provider answer is persisted
verbatim; in particular source that fails the safety validator is still
handed to the persistence collaborator. -/
theorem processGenerationJob_persists_without_validation :
    (∀ (j : GenerationJob) (llm : LlmResponse)
       (existsName : String → Except Unit Bool) (now : Nat),
       ProcEvent.validatorInvoked ∉
         (processGenerationJob j llm existsName now).2) ∧
    (∀ (j : GenerationJob) (llm : LlmResponse)
       (existsName : String → Except Unit Bool) (now : Nat)
       (comp : LlmComponent),
       j.status = .pending → llm.success = true →
       llm.component = some comp →
       ProcEvent.componentPersisted
           (generateUniqueName existsName comp.componentName now) comp.code ∈
         (processGenerationJob j llm existsName now).2) ∧
    (validateSafety "eval(document.cookie)" none).isValid = false := by
  refine ⟨?_, ?_, by decide⟩
  · intro j llm existsName now
    unfold processGenerationJob
    rcases hs : j.start now with ⟨j1, thrown⟩
    cases thrown with
    | some e =>
        simp only [handleProcessError]
        split <;> simp
    | none =>
        cases hsu : llm.success <;> cases hco : llm.component <;>
          simp [handleProcessError] <;> split <;> simp
  · intro j llm existsName now comp hp hsu hco
    have hstart := start_pending j now hp
    unfold processGenerationJob
    rw [hstart]
    simp [hsu, hco]

/-- Witness for C1: a provider answer whose code is the very string shown
to fail the safety validator is nevertheless persisted. -/
theorem processGenerationJob_persists_without_validation_witness :
    (pendingJobEx.status = GenerationStatus.pending ∧
      ({ success := true
       , component := some { componentType := "MUIButton"
                           , componentName := "Evil"
                           , code := "eval(document.cookie)" } } :
          LlmResponse).success = true) ∧
    ProcEvent.componentPersisted
        (generateUniqueName (fun _ => .ok false) "Evil" 3)
        "eval(document.cookie)" ∈
      (processGenerationJob pendingJobEx
        { success := true
        , component := some { componentType := "MUIButton"
                            , componentName := "Evil"
                            , code := "eval(document.cookie)" } }
        (fun _ => .ok false) 3).2 := by
  refine ⟨⟨rfl, rfl⟩, ?_⟩
  exact processGenerationJob_persists_without_validation.2.1 pendingJobEx
    { success := true
    , component := some { componentType := "MUIButton"
                        , componentName := "Evil"
                        , code := "eval(document.cookie)" } }
    (fun _ => .ok false) 3
    { componentType := "MUIButton", componentName := "Evil"
    , code := "eval(document.cookie)" } rfl rfl rfl

/-- The violation list of a safety check with a successful parse. -/
lemma validateSafety_violations_some (code : String) (nodes : List TsNode) :
    (validateSafety code (some nodes)).violations =
      patternViolations code ++ nodes.flatMap nodeViolations := rfl

/-- The validity bit is the emptiness of the error-severity filter. -/
lemma validateSafety_isValid_eq (code : String) (ast : Option (List TsNode)) :
    (validateSafety code ast).isValid =
      (((validateSafety code ast).violations.filter
          (fun v => v.severity == Severity.error)).length == 0) := rfl

/-- Any violation of the dynamic-access kind carries warning severity:
the only construction site with that kind tag is the element-access
branch of the node walk, and it always emits a warning. -/
lemma mem_violations_dynamic_access (code : String) (nodes : List TsNode)
    (v : Violation)
    (hv : v ∈ (validateSafety code (some nodes)).violations)
    (ht : v.vtype = "dynamic-access") : v.severity = Severity.warning := by
  rw [validateSafety_violations_some] at hv
  rcases List.mem_append.mp hv with h | h
  · obtain ⟨p, _, hf⟩ := List.mem_filterMap.mp h
    by_cases hps : patSearch p code = true
    · rw [if_pos hps] at hf
      injection hf with hv0
      rw [← hv0] at ht
      exact absurd ht (by decide)
    · rw [if_neg hps] at hf
      exact absurd hf (by simp)
  · obtain ⟨n, _, hvn⟩ := List.mem_flatMap.mp h
    cases n with
    | ident t =>
        simp only [nodeViolations] at hvn
        split at hvn
        · simp only [List.mem_singleton] at hvn
          rw [hvn] at ht
          simp at ht
        · simp at hvn
    | elementAccess t =>
        simp only [nodeViolations] at hvn
        split at hvn
        · simp only [List.mem_singleton] at hvn
          rw [hvn]
        · simp at hvn
    | call b t =>
        simp only [nodeViolations] at hvn
        split at hvn
        · simp only [List.mem_singleton] at hvn
          rw [hvn] at ht
          simp at ht
        · simp at hvn
    | other => simp [nodeViolations] at hvn

/-- C4: any source matching a forbidden textual pattern is reported
invalid with an error-severity violation, and dynamic bracketed access on
the sensitive globals only ever yields warning-severity findings, which
by themselves never invalidate the result. -/
theorem validateSafety_forbidden_patterns :
    (∀ (code : String) (ast : Option (List TsNode)),
        (∃ p ∈ forbiddenPatterns, patSearch p code = true) →
        (validateSafety code ast).isValid = false ∧
        ∃ v ∈ (validateSafety code ast).violations,
          v.severity = Severity.error) ∧
    (∀ (code : String) (nodes : List TsNode) (v : Violation),
        v ∈ (validateSafety code (some nodes)).violations →
        v.vtype = "dynamic-access" → v.severity = Severity.warning) ∧
    (∀ (code : String) (nodes : List TsNode),
        (∀ v ∈ (validateSafety code (some nodes)).violations,
            v.vtype = "dynamic-access") →
        (validateSafety code (some nodes)).isValid = true) := by
  refine ⟨?_, mem_violations_dynamic_access, ?_⟩
  · intro code ast h
    obtain ⟨p, hp, hm⟩ := h
    have hv0 : (⟨"forbidden-pattern", "Forbidden pattern detected",
        Severity.error⟩ : Violation) ∈ patternViolations code :=
      List.mem_filterMap.mpr ⟨p, hp, by simp [hm]⟩
    have hmem : (⟨"forbidden-pattern", "Forbidden pattern detected",
        Severity.error⟩ : Violation) ∈ (validateSafety code ast).violations := by
      cases ast with
      | none => exact List.mem_append_left _ hv0
      | some nodes =>
          rw [validateSafety_violations_some]
          exact List.mem_append_left _ hv0
    have hvfilter : (⟨"forbidden-pattern", "Forbidden pattern detected",
        Severity.error⟩ : Violation) ∈
          (validateSafety code ast).violations.filter
            (fun v => v.severity == Severity.error) :=
      List.mem_filter.mpr ⟨hmem, rfl⟩
    have hlen : ((validateSafety code ast).violations.filter
        (fun v => v.severity == Severity.error)).length ≠ 0 := by
      intro h0
      rw [List.length_eq_zero] at h0
      rw [h0] at hvfilter
      exact absurd hvfilter (List.not_mem_nil _)
    refine ⟨?_, ⟨_, hmem, rfl⟩⟩
    rw [validateSafety_isValid_eq]
    exact beq_eq_false_iff_ne.mpr hlen
  · intro code nodes hall
    have hfil : (validateSafety code (some nodes)).violations.filter
        (fun v => v.severity == Severity.error) = [] := by
      rw [List.filter_eq_nil_iff]
      intro v hv
      have hw := mem_violations_dynamic_access code nodes v hv (hall v hv)
      simp [hw]
    rw [validateSafety_isValid_eq, hfil]
    rfl

/-- Witness for C4: the specified scenario, a source assigning to the
window location, is invalid with an error finding; and a source whose
only finding is a dynamic access stays valid. -/
theorem validateSafety_forbidden_patterns_witness :
    (∃ p ∈ forbiddenPatterns,
        patSearch p "window.location = 'x'" = true) ∧
    ((validateSafety "window.location = 'x'" none).isValid = false ∧
      ∃ v ∈ (validateSafety "window.location = 'x'" none).violations,
        v.severity = Severity.error) ∧
    (∀ v ∈ (validateSafety "const a = 1"
        (some [.elementAccess "window[key]"])).violations,
        v.vtype = "dynamic-access") ∧
    (validateSafety "const a = 1"
        (some [.elementAccess "window[key]"])).isValid = true := by
  refine ⟨by decide, ?_, by decide, ?_⟩
  · exact validateSafety_forbidden_patterns.1 "window.location = 'x'" none
      (by decide)
  · exact validateSafety_forbidden_patterns.2.2 "const a = 1"
      [.elementAccess "window[key]"] (by decide)

/-- Membership after first-occurrence deduplication with a seen set. -/
lemma mem_dedupFirstAux (l : List String) :
    ∀ (seen : List String) (a : String),
      a ∈ dedupFirstAux seen l ↔ (a ∈ l ∧ a ∉ seen) := by
  induction l with
  | nil => intro seen a; simp [dedupFirstAux]
  | cons b t ih =>
      intro seen a
      by_cases hb : b ∈ seen
      · rw [show dedupFirstAux seen (b :: t) = dedupFirstAux seen t from
          by simp [dedupFirstAux, hb], ih]
        constructor
        · rintro ⟨h1, h2⟩
          exact ⟨List.mem_cons_of_mem _ h1, h2⟩
        · rintro ⟨h1, h2⟩
          rcases List.mem_cons.mp h1 with rfl | h1
          · exact absurd hb h2
          · exact ⟨h1, h2⟩
      · rw [show dedupFirstAux seen (b :: t) =
            b :: dedupFirstAux (b :: seen) t from by simp [dedupFirstAux, hb]]
        simp only [List.mem_cons, ih]
        constructor
        · rintro (rfl | ⟨h1, h2⟩)
          · exact ⟨Or.inl rfl, hb⟩
          · exact ⟨Or.inr h1, fun hs => h2 (Or.inr hs)⟩
        · rintro ⟨h1 | h1, h2⟩
          · exact Or.inl h1
          · by_cases hab : a = b
            · exact Or.inl hab
            · refine Or.inr ⟨h1, fun hs => ?_⟩
              rcases hs with h3 | h3
              · exact hab h3
              · exact h2 h3

/-- Deduplication does not change membership. -/
lemma mem_dedupFirst (l : List String) (a : String) :
    a ∈ dedupFirst l ↔ a ∈ l := by
  simp [dedupFirst, mem_dedupFirstAux]

/-- A forbidden member makes the collected filter nonempty and survives
deduplication. -/
lemma importFilter_forbidden (specs : List String) (m : String)
    (h1 : m ∈ specs) (h2 : isAllowedImport m = false) :
    (specs.filter (fun x => !isAllowedImport x)).length ≠ 0 ∧
    m ∈ dedupFirst (specs.filter (fun x => !isAllowedImport x)) := by
  have hm : m ∈ specs.filter (fun x => !isAllowedImport x) :=
    List.mem_filter.mpr ⟨h1, by simp [h2]⟩
  constructor
  · intro h0
    rw [List.length_eq_zero] at h0
    rw [h0] at hm
    exact absurd hm (List.not_mem_nil _)
  · exact (mem_dedupFirst _ _).mpr hm

/-- All-allowed specifiers leave the collected filter empty. -/
lemma importFilter_allowed (specs : List String)
    (h : ∀ m ∈ specs, isAllowedImport m = true) :
    specs.filter (fun x => !isAllowedImport x) = [] := by
  rw [List.filter_eq_nil_iff]
  intro a ha
  simp [h a ha]

/-- Validity of the import check, unfolded (parsed case). -/
lemma validateImports_some_isValid (pi : ParsedImports) (fb : List String) :
    (validateImports (some pi) fb).isValid =
      (((pi.statics ++ pi.dynamics).filter
          (fun m => !isAllowedImport m)).length == 0) := rfl

/-- Reported list of the import check, unfolded (parsed case). -/
lemma validateImports_some_forbidden (pi : ParsedImports) (fb : List String) :
    (validateImports (some pi) fb).forbiddenImports =
      dedupFirst ((pi.statics ++ pi.dynamics).filter
        (fun m => !isAllowedImport m)) := rfl

/-- Validity of the import check, unfolded (regex fallback case). -/
lemma validateImports_none_isValid (fb : List String) :
    (validateImports none fb).isValid =
      ((fb.filter (fun m => !isAllowedImport m)).length == 0) := rfl

/-- Reported list of the import check, unfolded (fallback case). -/
lemma validateImports_none_forbidden (fb : List String) :
    (validateImports none fb).forbiddenImports =
      dedupFirst (fb.filter (fun m => !isAllowedImport m)) := rfl

/-- C5 counterexample: the specifier reactxyzlib names none of the
allow-listed packages and is not relative, yet the import check accepts
it silently, because the matcher also admits any specifier that merely
extends an allow-list entry as a string prefix (here the entry react). -/
theorem validateImports_prefix_cex :
    (validateImports (some ⟨["reactxyzlib"], []⟩) []).isValid = true ∧
    (validateImports (some ⟨["reactxyzlib"], []⟩) []).forbiddenImports = [] ∧
    "reactxyzlib" ∉ allowedImports ∧
    strStartsWith "reactxyzlib" "./" = false ∧
    strStartsWith "reactxyzlib" "../" = false := by
  refine ⟨by decide, by decide, by decide, by decide, by decide⟩

/-- C5 (amended): a specifier is accepted exactly when it is relative or
matches the allow-list by equality or as a string-prefix extension of an
entry; every specifier failing that test makes the result invalid and is
named in the deduplicated forbiddenImports list, and when every checked
specifier passes, the result is valid with an empty list — in both the
parsed and the regex-fallback path. -/
theorem validateImports_allowlist :
    ∀ (pi : ParsedImports) (fb : List String),
      (∀ m, m ∈ pi.statics ++ pi.dynamics → isAllowedImport m = false →
        (validateImports (some pi) fb).isValid = false ∧
        m ∈ (validateImports (some pi) fb).forbiddenImports) ∧
      ((∀ m ∈ pi.statics ++ pi.dynamics, isAllowedImport m = true) →
        (validateImports (some pi) fb).isValid = true ∧
        (validateImports (some pi) fb).forbiddenImports = []) ∧
      (∀ m, m ∈ fb → isAllowedImport m = false →
        (validateImports none fb).isValid = false ∧
        m ∈ (validateImports none fb).forbiddenImports) ∧
      ((∀ m ∈ fb, isAllowedImport m = true) →
        (validateImports none fb).isValid = true ∧
        (validateImports none fb).forbiddenImports = []) := by
  intro pi fb
  refine ⟨?_, ?_, ?_, ?_⟩
  · intro m h1 h2
    obtain ⟨hlen, hmem⟩ := importFilter_forbidden _ m h1 h2
    rw [validateImports_some_isValid, validateImports_some_forbidden]
    exact ⟨beq_eq_false_iff_ne.mpr hlen, hmem⟩
  · intro h
    have hfil := importFilter_allowed _ h
    rw [validateImports_some_isValid, validateImports_some_forbidden, hfil]
    exact ⟨rfl, rfl⟩
  · intro m h1 h2
    obtain ⟨hlen, hmem⟩ := importFilter_forbidden _ m h1 h2
    rw [validateImports_none_isValid, validateImports_none_forbidden]
    exact ⟨beq_eq_false_iff_ne.mpr hlen, hmem⟩
  · intro h
    have hfil := importFilter_allowed _ h
    rw [validateImports_none_isValid, validateImports_none_forbidden, hfil]
    exact ⟨rfl, rfl⟩

/-- Witness for C5: the non-allowed package lodash invalidates the check
and is reported; an all-allowed import set passes cleanly. -/
theorem validateImports_allowlist_witness :
    ("lodash" ∈ (["lodash"] : List String) ++ ["./util"] ∧
      isAllowedImport "lodash" = false) ∧
    ((validateImports (some ⟨["lodash"], ["./util"]⟩) []).isValid = false ∧
      "lodash" ∈
        (validateImports (some ⟨["lodash"], ["./util"]⟩) []).forbiddenImports) ∧
    ((validateImports (some ⟨["react", "@mui/material"], ["./x"]⟩) []).isValid =
        true ∧
      (validateImports
          (some ⟨["react", "@mui/material"], ["./x"]⟩) []).forbiddenImports =
        []) := by
  refine ⟨⟨by decide, by decide⟩, ?_, ?_⟩
  · exact (validateImports_allowlist ⟨["lodash"], ["./util"]⟩ []).1 "lodash"
      (by decide) (by decide)
  · exact (validateImports_allowlist ⟨["react", "@mui/material"], ["./x"]⟩
      []).2.1 (by decide)

/-- C6 counterexample: the sandbox attribute of every rendered preview
iframe contains allow-forms, allow-popups and allow-modals besides the
two tokens the claim admits, so the frame does receive popup-opening
permission. -/
theorem renderPreviewIframe_sandbox_cex :
    "allow-popups" ∈ sandboxTokens previewSandboxAttribute ∧
    "allow-forms" ∈ sandboxTokens previewSandboxAttribute ∧
    "allow-modals" ∈ sandboxTokens previewSandboxAttribute ∧
    ("allow-popups" ≠ "allow-scripts" ∧
      "allow-popups" ≠ "allow-same-origin") ∧
    renderPreviewIframe (some "blob:preview-1") =
      some { src := "blob:preview-1", sandbox := previewSandboxAttribute
           , title := "Component Preview" } := by
  exact ⟨by decide, by decide, by decide, ⟨by decide, by decide⟩, rfl⟩

/-- C6 (amended): every rendered preview iframe carries exactly the fixed
sandbox token set allow-scripts, allow-same-origin, allow-forms,
allow-popups, allow-modals — popup permission included. -/
theorem renderPreviewIframe_sandbox :
    ∀ (u : String) (spec : IframeSpec),
      renderPreviewIframe (some u) = some spec →
      spec.sandbox = previewSandboxAttribute ∧
      sandboxTokens spec.sandbox =
        ["allow-scripts", "allow-same-origin", "allow-forms",
         "allow-popups", "allow-modals"] := by
  intro u spec h
  have hs : ({ src := u, sandbox := previewSandboxAttribute
             , title := "Component Preview" } : IframeSpec) = spec :=
    Option.some.inj h
  rw [← hs]
  refine ⟨rfl, ?_⟩
  show sandboxTokens previewSandboxAttribute =
    ["allow-scripts", "allow-same-origin", "allow-forms",
     "allow-popups", "allow-modals"]
  decide

/-- Witness for C6: the token set of a concrete render. -/
theorem renderPreviewIframe_sandbox_witness :
    renderPreviewIframe (some "blob:preview-2") =
      some { src := "blob:preview-2", sandbox := previewSandboxAttribute
           , title := "Component Preview" } ∧
    sandboxTokens
        ({ src := "blob:preview-2", sandbox := previewSandboxAttribute
         , title := "Component Preview" } : IframeSpec).sandbox =
      ["allow-scripts", "allow-same-origin", "allow-forms",
       "allow-popups", "allow-modals"] := by
  refine ⟨rfl, ?_⟩
  exact (renderPreviewIframe_sandbox "blob:preview-2"
    { src := "blob:preview-2", sandbox := previewSandboxAttribute
    , title := "Component Preview" } rfl).2

end MuiGen
